import Mathlib

/-!
# LightBnB data-access layer (`db/database.js`)

A shallow embedding of the query-building functions of `db/database.js` and of the
promise chains that turn the store's response into the value the caller sees.

* JavaScript values are the primitives `JSVal`. Numbers are doubles; the model holds the
  integer-valued ones, `NaN` and the two infinities, with `*` rounding to the nearest double
  and number-to-string conversion giving the shortest digits. Numbers with a fractional part
  are outside the model.
* A JavaScript object is an association list from property names to values; reading a
  property that is not there gives `undefined`.
* The connection pool is a function from a statement and its parameter list to the settled
  response of the store: an error, or a result carrying a row list.
-/

set_option autoImplicit false

namespace LightBnB

/-! ## JavaScript values -/

/-- The primitive JavaScript values that reach the query functions. `num n` is the
integer-valued number `n`, `nan` is `NaN`, `infinity false` is `Infinity` and
`infinity true` is `-Infinity`. -/
inductive JSVal where
  | undefined
  | null
  | boolean (b : Bool)
  | num (n : Int)
  | nan
  | infinity (negative : Bool)
  | str (s : String)
  deriving DecidableEq, Repr

open JSVal

/-- The number of binary digits of `m`, for `m` below `2 ^ fuel`. -/
def bitLength : Nat → Nat → Nat
  | 0, _ => 0
  | fuel + 1, m => if m = 0 then 0 else bitLength fuel (m / 2) + 1

/-- The double nearest to the natural number `m` (round to nearest, ties to even), as a
natural number; `none` when the result overflows to `Infinity`. The numbers up to `2 ^ 53`
are doubles themselves. -/
def roundToDouble (m : Nat) : Option Nat :=
  if m ≤ 2 ^ 53 then some m
  else if m ≥ 2 ^ 1024 then none
  else
    let shift := bitLength 1024 m - 53
    let q := m / 2 ^ shift
    let r := m % 2 ^ shift
    let half := 2 ^ (shift - 1)
    let q := if r > half ∨ (r = half ∧ q % 2 = 1) then q + 1 else q
    if q * 2 ^ shift ≥ 2 ^ 1024 then none else some (q * 2 ^ shift)

/-- The number of decimal digits of `m`, for `m` below `10 ^ fuel`. -/
def digitCount : Nat → Nat → Nat
  | 0, _ => 0
  | fuel + 1, m => if m = 0 then 0 else digitCount fuel (m / 10) + 1

/-- The decimals `s * 10 ^ e`, with `k` digits in `s`, that are read back as the double `x`:
the multiples of `10 ^ e` next to `x` on either side, for the two exponents possible. -/
def digitCandidates (x k : Nat) : List (Nat × Nat) :=
  let e := digitCount 310 x - k
  [(x / 10 ^ e, e), (x / 10 ^ e + 1, e), (x / 10 ^ (e + 1), e + 1),
    (x / 10 ^ (e + 1) + 1, e + 1)].filter
    (fun c => 10 ^ (k - 1) ≤ c.1 && c.1 < 10 ^ k && roundToDouble (c.1 * 10 ^ c.2) == some x)

/-- The distance between two natural numbers. -/
def distance (a b : Nat) : Nat :=
  (a - b) + (b - a)

/-- The better of two decimals for `x`: the closer one, the even one on a tie. -/
def closer (x : Nat) (a b : Nat × Nat) : Nat × Nat :=
  if distance (b.1 * 10 ^ b.2) x < distance (a.1 * 10 ^ a.2) x then b
  else if distance (b.1 * 10 ^ b.2) x = distance (a.1 * 10 ^ a.2) x ∧ b.1 % 2 = 0 then b
  else a

/-- The shortest decimal `s * 10 ^ e` that identifies the double `x`, searched with `k`
digits and then more; 17 digits always suffice. -/
def shortestDecimal (x : Nat) : Nat → Nat → Nat × Nat
  | 0, _ => (x, 0)
  | fuel + 1, k =>
    match digitCandidates x k with
    | [] => shortestDecimal x fuel (k + 1)
    | c :: cs => cs.foldl (closer x) c

/-- The digits `d₁d₂…` written as `d₁.d₂…`. -/
def withPoint : List Char → String
  | [] => ""
  | [d] => String.mk [d]
  | d :: ds => String.mk (d :: '.' :: ds)

/-- Number-to-string conversion of a natural number held as a double: the plain digits up to
`2 ^ 53`; beyond, the shortest digits that identify the double, followed by zeros below
`10 ^ 21` and in exponent form from there on. -/
def natToStr (m : Nat) : String :=
  if m ≤ 2 ^ 53 then toString m
  else
    let c := shortestDecimal m 17 1
    let n := digitCount 310 c.1 + c.2
    if n ≤ 21 then toString (c.1 * 10 ^ c.2)
    else withPoint (toString c.1).toList ++ "e+" ++ toString (n - 1)

/-- The product `n * 100` in double arithmetic: the exact product rounded to the nearest
double, an infinity when it overflows. -/
def numTimes100 (n : Int) : JSVal :=
  match roundToDouble (n.natAbs * 100) with
  | some v => num (if n < 0 then -(v : Int) else (v : Int))
  | none => infinity (decide (n < 0))

/-- A JavaScript object: property names with their values. -/
abbrev JSObject := List (String × JSVal)

/-- Property read `obj.key`: the value stored under `key`, `undefined` when there is none. -/
def JSObject.get (obj : JSObject) (key : String) : JSVal :=
  match obj.lookup key with
  | some v => v
  | none => undefined

/-- Truthiness (`ToBoolean`), the test an `if (v)` performs. -/
def truthy : JSVal → Bool
  | undefined => false
  | null => false
  | boolean b => b
  | num n => n != 0
  | nan => false
  | infinity _ => true
  | str s => s != ""

/-- String conversion (`ToString`), as performed by a template literal. -/
def toStr : JSVal → String
  | undefined => "undefined"
  | null => "null"
  | boolean true => "true"
  | boolean false => "false"
  | num n => (if n < 0 then "-" else "") ++ natToStr n.natAbs
  | nan => "NaN"
  | infinity false => "Infinity"
  | infinity true => "-Infinity"
  | str s => s

/-- The expression `v * 100`. The numeric value of a string (`ToNumber`) is supplied by
`strToNum`, with `none` standing for `NaN`. -/
def times100 (strToNum : String → Option Int) : JSVal → JSVal
  | undefined => nan
  | null => num 0
  | boolean true => num 100
  | boolean false => num 0
  | num n => numTimes100 n
  | nan => nan
  | infinity negative => infinity negative
  | str s =>
    match strToNum s with
    | some n => numTimes100 n
    | none => nan

/-! ## `getAllProperties` -/

/-- A statement ready to be sent: its text and its ordered parameter list. -/
structure Query where
  queryString : String
  queryParams : List JSVal
  deriving DecidableEq, Repr

/-- The text `getAllProperties` starts from, everything before the WHERE clause. -/
def baseQueryString : String :=
  "\n  SELECT properties.*, avg(property_reviews.rating) as average_rating\n  FROM properties\n  JOIN property_reviews ON properties.id = property_id\n  "

/-- The statement built by `getAllProperties(options, limit = 10)`: the text and the
parameter list handed to `pool.query`. Each step mirrors one `if` of the source; a
placeholder number is the length of the parameter list right after the push. An omitted
`limit` is `undefined` and takes the default 10. -/
def getAllPropertiesQuery (strToNum : String → Option Int) (options : JSObject)
    (limit : JSVal) : Query :=
  let limit := if limit = undefined then num 10 else limit
  let queryParams : List JSVal := []
  let queryString := baseQueryString
  -- if (options.city)
  let (queryParams, queryString) :=
    if truthy (options.get "city") then
      let queryParams := queryParams ++ [str ("%" ++ toStr (options.get "city") ++ "%")]
      (queryParams, queryString ++ ("WHERE city LIKE $" ++ toString queryParams.length ++ " "))
    else (queryParams, queryString)
  -- if (options.owner_id)
  let (queryParams, queryString) :=
    if truthy (options.get "owner_id") then
      let queryParams := queryParams ++ [options.get "owner_id"]
      (queryParams, queryString ++ ("AND owner_id = $" ++ toString queryParams.length))
    else (queryParams, queryString)
  -- price range
  let (queryParams, queryString) :=
    if truthy (options.get "minimum_price_per_night")
        && truthy (options.get "maximum_price_per_night") then
      let queryParams := queryParams ++ [times100 strToNum (options.get "minimum_price_per_night")]
      let queryParams := queryParams ++ [times100 strToNum (options.get "maximum_price_per_night")]
      (queryParams, queryString ++ ("AND cost_per_night >= $" ++ toString (queryParams.length - 1)
        ++ " AND cost_per_night <= $" ++ toString queryParams.length))
    else if truthy (options.get "minimum_price_per_night") then
      let queryParams := queryParams ++ [times100 strToNum (options.get "minimum_price_per_night")]
      (queryParams, queryString ++ ("AND cost_per_night >= $" ++ toString queryParams.length))
    else if truthy (options.get "maximum_price_per_night") then
      let queryParams := queryParams ++ [times100 strToNum (options.get "maximum_price_per_night")]
      (queryParams, queryString ++ ("AND cost_per_night <= $" ++ toString queryParams.length))
    else (queryParams, queryString)
  let queryString := queryString ++ "\n  GROUP BY properties.id"
  -- if (options.minimum_rating)
  let (queryParams, queryString) :=
    if truthy (options.get "minimum_rating") then
      let queryParams := queryParams ++ [options.get "minimum_rating"]
      (queryParams, queryString ++ ("\n      HAVING avg(property_reviews.rating) >= $"
        ++ toString queryParams.length))
    else (queryParams, queryString)
  let queryParams := queryParams ++ [limit]
  let queryString := queryString ++ (" ORDER BY cost_per_night\n  LIMIT $"
    ++ toString queryParams.length ++ ";\n  ")
  { queryString := queryString, queryParams := queryParams }

/-! ## `addProperty` -/

/-- The text of the INSERT statement of `addProperty`. -/
def addPropertyQueryString : String :=
  "\n    INSERT INTO properties (\n      owner_id,\n      title,\n      description,\n      thumbnail_photo_url,\n      cover_photo_url,\n      cost_per_night,\n      street,\n      city,\n      province,\n      post_code,\n      country,\n      parking_spaces,\n      number_of_bathrooms,\n      number_of_bedrooms\n    )\n    VALUES ($1, $2, $3, $4, $5, $6, $7, $8, $9, $10, $11, $12, $13, $14)\n    RETURNING *;\n  "

/-- The statement built by `addProperty(property)`: the destructured fields of the payload,
in the order of the `queryParams` array literal, and the fixed INSERT text. -/
def addPropertyQuery (property : JSObject) : Query :=
  let owner_id := property.get "owner_id"
  let title := property.get "title"
  let description := property.get "description"
  let thumbnail_photo_url := property.get "thumbnail_photo_url"
  let cover_photo_url := property.get "cover_photo_url"
  let cost_per_night := property.get "cost_per_night"
  let street := property.get "street"
  let city := property.get "city"
  let province := property.get "province"
  let post_code := property.get "post_code"
  let country := property.get "country"
  let parking_spaces := property.get "parking_spaces"
  let number_of_bathrooms := property.get "number_of_bathrooms"
  let number_of_bedrooms := property.get "number_of_bedrooms"
  let queryParams := [owner_id, title, description, thumbnail_photo_url, cover_photo_url,
    cost_per_night, street, city, province, post_code, country, parking_spaces,
    number_of_bathrooms, number_of_bedrooms]
  { queryString := addPropertyQueryString, queryParams := queryParams }

/-! ## The store and the promise chains -/

/-- A row returned by the store. -/
abbrev Row := JSObject

/-- The result object of a successful query; only `rows` is read. -/
structure QueryResult where
  rows : List Row
  deriving DecidableEq, Repr

/-- A settled promise: resolved with a value or rejected with an error. -/
inductive Promise (α : Type) where
  | resolved (value : α)
  | rejected (err : String)
  deriving DecidableEq, Repr

/-- The handler chain `p.then(f)` for a handler that does not throw. -/
def Promise.then_ {α β : Type} (p : Promise α) (f : α → β) : Promise β :=
  match p with
  | .resolved v => .resolved (f v)
  | .rejected e => .rejected e

/-- The handler chain `p.catch(g)` for a handler that does not throw. -/
def Promise.catch_ {α : Type} (p : Promise α) (g : String → α) : Promise α :=
  match p with
  | .resolved v => .resolved v
  | .rejected e => .resolved (g e)

/-- The connection pool: `pool.query(text, params)` settles with the store's response. -/
abbrev Pool := String → List JSVal → Promise QueryResult

/-- The values the six functions hand back to their caller. -/
inductive Value where
  | undefined
  | null
  | row (r : Row)
  | rows (rs : List Row)
  deriving DecidableEq, Repr

/-- The indexing `rows[0]`: the first row, `undefined` for an empty array. -/
def firstRow : List Row → Value
  | [] => .undefined
  | r :: _ => .row r

/-- The expression `a || b`; objects and arrays are truthy. -/
def Value.or (a b : Value) : Value :=
  match a with
  | .undefined => b
  | .null => b
  | .row r => .row r
  | .rows rs => .rows rs

/-- `getUserWithEmail(email)`. -/
def getUserWithEmail (pool : Pool) (email : JSVal) : Promise Value :=
  ((pool "SELECT * FROM users WHERE email = $1" [email]).then_ (fun result =>
    let user := firstRow result.rows
    user.or .null)).catch_ (fun _ => .null)

/-- `getUserWithId(id)`. -/
def getUserWithId (pool : Pool) (id : JSVal) : Promise Value :=
  ((pool "SELECT * FROM users WHERE id = $1" [id]).then_ (fun result =>
    let user := firstRow result.rows
    user.or .null)).catch_ (fun _ => .null)

/-- `addUser(user)`. -/
def addUser (pool : Pool) (user : JSObject) : Promise Value :=
  let name := user.get "name"
  let email := user.get "email"
  let password := user.get "password"
  ((pool "INSERT INTO users (name, email, password) VALUES ($1, $2, $3) RETURNING *"
      [name, email, password]).then_ (fun result =>
    let newUser := firstRow result.rows
    newUser.or .null)).catch_ (fun _ => .null)

/-- The text of the statement of `getAllReservations`. -/
def getAllReservationsQueryString : String :=
  "SELECT reservations.*, properties.title, properties.cost_per_night, properties.thumbnail_photo_url,\n              properties.number_of_bedrooms, properties.number_of_bathrooms,\n              properties.parking_spaces, properties.country, properties.street,\n              properties.city, properties.province, properties.post_code,\n              avg(property_reviews.rating) as average_rating\n      FROM reservations\n      JOIN properties ON reservations.property_id = properties.id\n      LEFT JOIN property_reviews ON properties.id = property_reviews.property_id\n      WHERE reservations.guest_id = $1\n      GROUP BY reservations.id, properties.id\n      ORDER BY reservations.start_date\n      LIMIT $2"

/-- `getAllReservations(guest_id, limit = 10)`; the catch handler returns nothing, so the
promise resolves with `undefined` after a failure. -/
def getAllReservations (pool : Pool) (guest_id : JSVal) (limit : JSVal) : Promise Value :=
  let limit := if limit = JSVal.undefined then num 10 else limit
  ((pool getAllReservationsQueryString [guest_id, limit]).then_ (fun result =>
    Value.rows result.rows)).catch_ (fun _ => .undefined)

/-- `getAllProperties(options, limit = 10)`: the built statement is run and the row list
returned; there is no catch handler. -/
def getAllProperties (pool : Pool) (strToNum : String → Option Int) (options : JSObject)
    (limit : JSVal) : Promise Value :=
  let q := getAllPropertiesQuery strToNum options limit
  (pool q.queryString q.queryParams).then_ (fun res => Value.rows res.rows)

/-- `addProperty(property)`. -/
def addProperty (pool : Pool) (property : JSObject) : Promise Value :=
  let q := addPropertyQuery property
  ((pool q.queryString q.queryParams).then_ (fun result =>
    let newProperty := firstRow result.rows
    newProperty.or .null)).catch_ (fun _ => .null)

/-! ## Reading a statement text -/

/-- A statement text cut at its placeholders: a stretch of plain text, or a placeholder
`$k` (a dollar sign followed by a run of decimal digits). -/
inductive Piece where
  | text (s : List Char)
  | placeholder (k : Nat)
  deriving DecidableEq, Repr

/-- The plain text collected so far, as a piece; nothing when it is empty. -/
def flushText (acc : List Char) : List Piece :=
  if acc = [] then [] else [.text acc.reverse]

/-- Whether a text starts with a decimal digit. -/
def startsWithDigit : List Char → Bool
  | [] => false
  | c :: _ => c.isDigit

/-- Left-to-right scan. `acc` is the plain text read since the last placeholder (reversed);
`cur` is the value of the placeholder whose digits are being read, if any. -/
def piecesAux : List Char → List Char → Option Nat → List Piece
  | [], acc, none => flushText acc
  | [], _, some k => [.placeholder k]
  | c :: cs, acc, none =>
    if c = '$' && startsWithDigit cs then flushText acc ++ piecesAux cs [] (some 0)
    else piecesAux cs (c :: acc) none
  | c :: cs, _, some k =>
    if c.isDigit then piecesAux cs [] (some (10 * k + (c.toNat - '0'.toNat)))
    else if c = '$' && startsWithDigit cs then .placeholder k :: piecesAux cs [] (some 0)
    else .placeholder k :: piecesAux cs [c] none

/-- The pieces of a statement text, left to right. -/
def pieces (s : String) : List Piece :=
  piecesAux s.toList [] none

/-- The placeholder numbers occurring in a text, left to right. -/
def placeholders (s : String) : List Nat :=
  (pieces s).filterMap (fun p => match p with
    | .placeholder k => some k
    | .text _ => none)

/-- The positions at which `pat` occurs in `s`, counted in characters from `offset`. -/
def occurrencesAux (pat : List Char) : List Char → Nat → List Nat
  | [], offset => if pat = [] then [offset] else []
  | c :: cs, offset =>
    if pat.isPrefixOf (c :: cs) then offset :: occurrencesAux pat cs (offset + 1)
    else occurrencesAux pat cs (offset + 1)

/-- The character positions at which the text `pat` occurs in `s`, ascending. -/
def occurrences (pat s : String) : List Nat :=
  occurrencesAux pat.toList s.toList 0

/-- The filters of a property search, in the order the source handles them, and the limit. -/
inductive Filter where
  | city
  | owner_id
  | minimum_price_per_night
  | maximum_price_per_night
  | minimum_rating
  | limit
  deriving DecidableEq, Repr

/-- The clause a placeholder stands in, read off the text that leads up to it. -/
def clauseOf (before : List Char) : Option Filter :=
  if "city LIKE ".toList.isSuffixOf before then some .city
  else if "owner_id = ".toList.isSuffixOf before then some .owner_id
  else if "cost_per_night >= ".toList.isSuffixOf before then some .minimum_price_per_night
  else if "cost_per_night <= ".toList.isSuffixOf before then some .maximum_price_per_night
  else if "avg(property_reviews.rating) >= ".toList.isSuffixOf before then some .minimum_rating
  else if "LIMIT ".toList.isSuffixOf before then some .limit
  else none

/-- Pairs each placeholder with the clause it stands in: `before` is the plain text since the
previous placeholder. -/
def clausesAux : List Piece → List Char → List (Option Filter × Nat)
  | [], _ => []
  | .text s :: ps, _ => clausesAux ps s
  | .placeholder k :: ps, before => (clauseOf before, k) :: clausesAux ps []

/-- For each placeholder of a text, left to right: the clause it stands in and its number. -/
def placeholderClauses (s : String) : List (Option Filter × Nat) :=
  clausesAux (pieces s) []

/-- Whether some placeholder is immediately followed by a letter. -/
def letterAfterPlaceholder : List Piece → Bool
  | .placeholder _ :: .text (c :: s) :: ps =>
    c.isAlpha || letterAfterPlaceholder (.text (c :: s) :: ps)
  | _ :: ps => letterAfterPlaceholder ps
  | [] => false

/-- The value a statement binds in each clause: the parameter at the placeholder's
position, for each placeholder left to right. -/
def bindings (q : Query) : List (Option Filter × Option JSVal) :=
  (placeholderClauses q.queryString).map (fun c => (c.1, q.queryParams.get? (c.2 - 1)))

/-! ## Reading the lists of an INSERT statement -/

/-- Splits a list body at its commas, dropping whitespace; `cur` is the item being read
(reversed). -/
def splitCommas : List Char → List Char → List String
  | [], cur => [String.mk cur.reverse]
  | c :: cs, cur =>
    if c = ',' then String.mk cur.reverse :: splitCommas cs []
    else if c.isWhitespace then splitCommas cs cur
    else splitCommas cs (c :: cur)

/-- The bodies of the parenthesised groups of a text, left to right; `cur` is the body being
read (reversed) when inside a group. -/
def parenGroups : List Char → Option (List Char) → List (List Char)
  | [], _ => []
  | c :: cs, none => if c = '(' then parenGroups cs (some []) else parenGroups cs none
  | c :: cs, some cur =>
    if c = ')' then cur.reverse :: parenGroups cs none else parenGroups cs (some (c :: cur))

/-- The comma-separated lists that a statement text holds in parentheses: for an INSERT,
the column list and then the VALUES list. -/
def parenLists (s : String) : List (List String) :=
  (parenGroups s.toList none).map (fun body => splitCommas body [])

/-- The result the swallow-errors contract prescribes for a response of the store: the
first row when there is one, `null` for no row and for a failure; never a rejection. -/
def firstRowOrNull : Promise QueryResult → Promise Value
  | .resolved ⟨r :: _⟩ => .resolved (.row r)
  | .resolved ⟨[]⟩ => .resolved .null
  | .rejected _ => .resolved .null

/-! ## The shape of a SELECT statement -/

/-- The tokens of a statement text: words (names, keywords, numbers), placeholders, and
punctuation or operators. -/
inductive Token where
  | word (s : List Char)
  | param (k : Nat)
  | sym (s : List Char)
  deriving DecidableEq, Repr

/-- The word collected so far, as a token; nothing when it is empty. -/
def flushWord (cur : List Char) : List Token :=
  if cur = [] then [] else [.word cur.reverse]

/-- Whether a character can be part of a word. -/
def isWordChar (c : Char) : Bool :=
  c.isAlphanum || c = '_'

/-- Tokens of a stretch of plain text; `cur` is the word being read (reversed). Whitespace
separates, `<=` and `>=` are one operator, and a character outside the listed ones makes the
text unreadable. -/
def lexText : List Char → List Char → Option (List Token)
  | [], cur => some (flushWord cur)
  | c :: cs, cur =>
    if isWordChar c then lexText cs (c :: cur)
    else if c.isWhitespace then (lexText cs []).map (fun ts => flushWord cur ++ ts)
    else if c = '<' || c = '>' then
      match cs with
      | d :: ds =>
        if d = '=' then (lexText ds []).map (fun ts => flushWord cur ++ Token.sym [c, d] :: ts)
        else (lexText (d :: ds) []).map (fun ts => flushWord cur ++ Token.sym [c] :: ts)
      | [] => some (flushWord cur ++ [Token.sym [c]])
    else if c = '*' || c = ',' || c = '(' || c = ')' || c = '.' || c = ';' || c = '=' then
      (lexText cs []).map (fun ts => flushWord cur ++ Token.sym [c] :: ts)
    else none

/-- Whether a text starts with a word character. -/
def startsWithWordChar : List Char → Bool
  | [] => false
  | c :: _ => isWordChar c

/-- Tokens of a statement cut into pieces. A placeholder that runs into a following word
(`$1AND`) is not split here: such a text is left unreadable. -/
def lexPieces : List Piece → Option (List Token)
  | [] => some []
  | .text s :: ps => (lexText s []).bind (fun ts => (lexPieces ps).map (fun us => ts ++ us))
  | .placeholder k :: ps =>
    match ps with
    | .text s :: _ =>
      if startsWithWordChar s then none else (lexPieces ps).map (fun us => Token.param k :: us)
    | _ => (lexPieces ps).map (fun us => Token.param k :: us)

/-- The tokens of a statement text, when it can be read. -/
def sqlTokens (s : String) : Option (List Token) :=
  lexPieces (pieces s)

/-- The reserved words of the statements at hand, in lower case. -/
def reservedWords : List (List Char) :=
  ["select", "from", "join", "left", "inner", "on", "where", "group", "by", "having", "order",
    "limit", "and", "or", "as", "like"].map String.toList

/-- Whether a token is the keyword `k` (given in lower case), in any letter case. -/
def isKeyword (k : String) : Token → Bool
  | .word s => s.map Char.toLower == k.toList
  | _ => false

/-- Whether a token is the punctuation or operator `s`. -/
def isSym (s : String) : Token → Bool
  | .sym t => t == s.toList
  | _ => false

/-- Reads the keyword `k`. -/
def expectKeyword (k : String) : List Token → Option (List Token)
  | t :: ts => if isKeyword k t then some ts else none
  | [] => none

/-- Reads the punctuation `s`. -/
def expectSym (s : String) : List Token → Option (List Token)
  | t :: ts => if isSym s t then some ts else none
  | [] => none

/-- Reads a word that is not reserved. -/
def parseIdent : List Token → Option (List Token)
  | .word s :: ts => if reservedWords.contains (s.map Char.toLower) then none else some ts
  | _ => none

/-- Reads a name, plain or qualified: `a` or `a.b`. -/
def parseName (ts : List Token) : Option (List Token) :=
  match parseIdent ts with
  | none => none
  | some rest =>
    match expectSym "." rest with
    | some rest2 =>
      match parseIdent rest2 with
      | some rest3 => some rest3
      | none => some rest
    | none => some rest

/-- Reads an expression: a placeholder, a function applied to a name, or a name. -/
def parseExpr : List Token → Option (List Token)
  | .param _ :: ts => some ts
  | ts =>
    match (parseIdent ts).bind (expectSym "(") with
    | some rest => (parseName rest).bind (expectSym ")")
    | none => parseName ts

/-- Reads a comparison operator: `=`, `<`, `>`, `<=`, `>=` or `LIKE`. -/
def parseOperator : List Token → Option (List Token)
  | t :: ts =>
    if isSym "=" t || isSym "<" t || isSym ">" t || isSym "<=" t || isSym ">=" t
      || isKeyword "like" t then some ts else none
  | [] => none

/-- Reads a comparison: expression, operator, expression. -/
def parseComparison (ts : List Token) : Option (List Token) :=
  ((parseExpr ts).bind parseOperator).bind parseExpr

/-- Reads the `AND comparison` continuations of a condition, as many as there are. -/
def parseAnds : Nat → List Token → Option (List Token)
  | 0, ts => some ts
  | fuel + 1, ts =>
    match expectKeyword "and" ts with
    | some rest => (parseComparison rest).bind (parseAnds fuel)
    | none => some ts

/-- Reads a condition: comparisons joined by `AND`. -/
def parseCondition (ts : List Token) : Option (List Token) :=
  (parseComparison ts).bind (parseAnds ts.length)

/-- Reads an item of the select list: `*`, `name.*`, or an expression with an optional
`AS alias`. -/
def parseItem (ts : List Token) : Option (List Token) :=
  match expectSym "*" ts with
  | some rest => some rest
  | none =>
    match ((parseIdent ts).bind (expectSym ".")).bind (expectSym "*") with
    | some rest => some rest
    | none =>
      match parseExpr ts with
      | none => none
      | some rest =>
        match expectKeyword "as" rest with
        | some rest2 => parseIdent rest2
        | none => some rest

/-- Reads the `, item` continuations of a list read with `item`. -/
def parseMore (item : List Token → Option (List Token)) : Nat → List Token → Option (List Token)
  | 0, ts => some ts
  | fuel + 1, ts =>
    match expectSym "," ts with
    | some rest => (item rest).bind (parseMore item fuel)
    | none => some ts

/-- Reads a comma-separated list read with `item`. -/
def parseList (item : List Token → Option (List Token)) (ts : List Token) :
    Option (List Token) :=
  (item ts).bind (parseMore item ts.length)

/-- Reads the keyword that opens a join: `JOIN`, `LEFT JOIN` or `INNER JOIN`. -/
def expectJoin (ts : List Token) : Option (List Token) :=
  match expectKeyword "join" ts with
  | some rest => some rest
  | none =>
    match expectKeyword "left" ts with
    | some rest => expectKeyword "join" rest
    | none => (expectKeyword "inner" ts).bind (expectKeyword "join")

/-- Reads the `JOIN name ON condition` clauses, as many as there are. -/
def parseJoins : Nat → List Token → Option (List Token)
  | 0, ts => some ts
  | fuel + 1, ts =>
    match expectJoin ts with
    | some rest =>
      (((parseName rest).bind (expectKeyword "on")).bind parseCondition).bind (parseJoins fuel)
    | none => some ts

/-- Reads an optional clause: when the text continues with the keywords `ks`, the clause
body must follow. -/
def parseOptional (ks : List String) (body : List Token → Option (List Token))
    (ts : List Token) : Option (List Token) :=
  match ks.foldlM (fun rest k => expectKeyword k rest) ts with
  | some rest => body rest
  | none => some ts

/-- Reads a SELECT statement of the shape
`SELECT items FROM name {JOIN name ON condition} [WHERE condition] [GROUP BY list]
[HAVING condition] [ORDER BY list] [LIMIT expression] [;]` and gives what is left over. -/
def parseSelect (ts : List Token) : Option (List Token) :=
  ((((((((((expectKeyword "select" ts).bind (parseList parseItem)).bind
    (expectKeyword "from")).bind parseName).bind (fun rest => parseJoins rest.length rest)).bind
    (parseOptional ["where"] parseCondition)).bind
    (parseOptional ["group", "by"] (parseList parseExpr))).bind
    (parseOptional ["having"] parseCondition)).bind
    (parseOptional ["order", "by"] (parseList parseExpr))).bind
    (parseOptional ["limit"] parseExpr)).bind
    (parseOptional [] (fun rest => some ((expectSym ";" rest).getD rest)))

/-- Whether a text is a well-formed SELECT statement: it can be read into tokens and these
make up one statement with nothing left over. -/
def wellFormedSelect (s : String) : Bool :=
  match (sqlTokens s).bind parseSelect with
  | some [] => true
  | _ => false

/-! ## The LIKE operator -/

/-- Whether `k` holds of some suffix of a text, the whole text and the empty suffix
included. -/
def anySuffix (k : List Char → Bool) : List Char → Bool
  | [] => k []
  | c :: cs => k (c :: cs) || anySuffix k cs

/-- The LIKE operator of the store (PostgreSQL): the pattern must cover the whole text; `%`
stands for any run of characters, `_` for any one character, a backslash makes the next
pattern character literal, and every other character matches only itself, letter case
included. `escaped` tells that the previous pattern character was an unescaped backslash;
a pattern ending right after one matches nothing. -/
def likeMatch : Bool → List Char → List Char → Bool
  | escaped, [], t => !escaped && t.isEmpty
  | true, p :: ps, t =>
    match t with
    | [] => false
    | c :: cs => p == c && likeMatch false ps cs
  | false, p :: ps, t =>
    if p = '\\' then likeMatch true ps t
    else if p = '%' then anySuffix (likeMatch false ps) t
    else
      match t with
      | [] => false
      | c :: cs => (p == '_' || p == c) && likeMatch false ps cs

/-- The condition `text LIKE pattern`. -/
def sqlLike (text pattern : String) : Bool :=
  likeMatch false pattern.toList text.toList

/-- A text free of the characters LIKE gives a meaning to. -/
def plainText (s : String) : Prop :=
  ∀ c ∈ s.toList, c ≠ '%' ∧ c ≠ '_' ∧ c ≠ '\\'

/-- Containment regardless of letter case: the lower-cased `needle` occurs in the
lower-cased `hay`. -/
def containsIgnoringCase (needle hay : String) : Bool :=
  anySuffix (fun u => (needle.toList.map Char.toLower).isPrefixOf u)
    (hay.toList.map Char.toLower)

/-! ## The claimed shape of a property search -/

/-- The value the search binds for a filter: the `%`-wrapped city text, the owner id, the
price bounds in cents, the minimum rating, and the limit (10 when omitted). -/
def filterValue (strToNum : String → Option Int) (options : JSObject) (limit : JSVal) :
    Filter → JSVal
  | .city => str ("%" ++ toStr (options.get "city") ++ "%")
  | .owner_id => options.get "owner_id"
  | .minimum_price_per_night => times100 strToNum (options.get "minimum_price_per_night")
  | .maximum_price_per_night => times100 strToNum (options.get "maximum_price_per_night")
  | .minimum_rating => options.get "minimum_rating"
  | .limit => if limit = undefined then num 10 else limit

/-- Whether a filter is present in the options, by the test the source applies
(`if (options.x)`); the limit always is. -/
def filterPresent (options : JSObject) : Filter → Bool
  | .city => truthy (options.get "city")
  | .owner_id => truthy (options.get "owner_id")
  | .minimum_price_per_night => truthy (options.get "minimum_price_per_night")
  | .maximum_price_per_night => truthy (options.get "maximum_price_per_night")
  | .minimum_rating => truthy (options.get "minimum_rating")
  | .limit => true

/-- The filters that are present, in the claimed order, the limit last. -/
def expectedFilters (options : JSObject) : List Filter :=
  [Filter.city, .owner_id, .minimum_price_per_night, .maximum_price_per_night, .minimum_rating,
    .limit].filter (filterPresent options)

/-- An options object whose filters are present exactly as flagged. -/
def flagOptions (city owner minP maxP rating : Bool) : JSObject :=
  [("city", boolean city), ("owner_id", boolean owner), ("minimum_price_per_night", boolean minP),
   ("maximum_price_per_night", boolean maxP), ("minimum_rating", boolean rating)]

/-- The text of the search for a presence pattern. -/
def flagText (city owner minP maxP rating : Bool) : String :=
  (getAllPropertiesQuery (fun _ => none) (flagOptions city owner minP maxP rating)
    undefined).queryString

/-- The price conditions of a statement, left to right, with the value bound in each. -/
def priceBindings (q : Query) : List (Option Filter × Option JSVal) :=
  (bindings q).filter (fun b =>
    b.1 == some Filter.minimum_price_per_night || b.1 == some Filter.maximum_price_per_night)

/-- The placeholder number the first price bound receives: one more than the number of
parameters pushed for the city and for the owner. -/
def pricePlaceholder (options : JSObject) : Nat :=
  (if truthy (options.get "city") then 1 else 0)
    + (if truthy (options.get "owner_id") then 1 else 0) + 1

/-! ## Lemmas on `getAllPropertiesQuery` -/

set_option maxRecDepth 100000

theorem queryString_flags (f : String → Option Int) (o : JSObject) (l : JSVal) :
    (getAllPropertiesQuery f o l).queryString =
      flagText (truthy (o.get "city")) (truthy (o.get "owner_id"))
        (truthy (o.get "minimum_price_per_night")) (truthy (o.get "maximum_price_per_night"))
        (truthy (o.get "minimum_rating")) := by
  cases h1 : truthy (o.get "city") <;> cases h2 : truthy (o.get "owner_id") <;>
  cases h3 : truthy (o.get "minimum_price_per_night") <;>
  cases h4 : truthy (o.get "maximum_price_per_night") <;>
  cases h5 : truthy (o.get "minimum_rating") <;>
  simp only [getAllPropertiesQuery, h1, h2, h3, h4, h5] <;> rfl

theorem expectedFilters_flags (o : JSObject) :
    expectedFilters o = expectedFilters (flagOptions (truthy (o.get "city"))
      (truthy (o.get "owner_id")) (truthy (o.get "minimum_price_per_night"))
      (truthy (o.get "maximum_price_per_night")) (truthy (o.get "minimum_rating"))) := by
  cases h1 : truthy (o.get "city") <;> cases h2 : truthy (o.get "owner_id") <;>
  cases h3 : truthy (o.get "minimum_price_per_night") <;>
  cases h4 : truthy (o.get "maximum_price_per_night") <;>
  cases h5 : truthy (o.get "minimum_rating") <;>
  simp only [expectedFilters, filterPresent, List.filter, h1, h2, h3, h4, h5] <;> rfl

theorem queryParams_eq (f : String → Option Int) (o : JSObject) (l : JSVal) :
    (getAllPropertiesQuery f o l).queryParams = (expectedFilters o).map (filterValue f o l) := by
  cases h1 : truthy (o.get "city") <;> cases h2 : truthy (o.get "owner_id") <;>
  cases h3 : truthy (o.get "minimum_price_per_night") <;>
  cases h4 : truthy (o.get "maximum_price_per_night") <;>
  cases h5 : truthy (o.get "minimum_rating") <;>
  simp only [getAllPropertiesQuery, expectedFilters, filterPresent, List.filter, h1, h2, h3, h4,
    h5] <;> rfl

theorem placeholderClauses_flags : ∀ c ow mn mx r : Bool,
    placeholderClauses (flagText c ow mn mx r) =
      List.zip ((expectedFilters (flagOptions c ow mn mx r)).map some)
        (List.range' 1 (expectedFilters (flagOptions c ow mn mx r)).length) := by
  decide!

theorem placeholders_flags : ∀ c ow mn mx r : Bool,
    placeholders (flagText c ow mn mx r) =
      List.range' 1 (expectedFilters (flagOptions c ow mn mx r)).length := by
  decide!

theorem placeholderClauses_last_flags : ∀ c ow mn mx r : Bool,
    (placeholderClauses (flagText c ow mn mx r)).getLast? =
      some (some Filter.limit, (expectedFilters (flagOptions c ow mn mx r)).length) := by
  decide!

theorem bindings_eq (f : String → Option Int) (o : JSObject) (l : JSVal) :
    bindings (getAllPropertiesQuery f o l) =
      (expectedFilters o).map (fun x => (some x, some (filterValue f o l x))) := by
  rw [bindings, queryParams_eq, queryString_flags, placeholderClauses_flags,
    ← expectedFilters_flags]
  cases h1 : truthy (o.get "city") <;> cases h2 : truthy (o.get "owner_id") <;>
  cases h3 : truthy (o.get "minimum_price_per_night") <;>
  cases h4 : truthy (o.get "maximum_price_per_night") <;>
  cases h5 : truthy (o.get "minimum_rating") <;>
  simp only [expectedFilters, filterPresent, List.filter, h1, h2, h3, h4, h5] <;> rfl

theorem pricePlaceholder_flags (o : JSObject) :
    pricePlaceholder o = pricePlaceholder (flagOptions (truthy (o.get "city"))
      (truthy (o.get "owner_id")) (truthy (o.get "minimum_price_per_night"))
      (truthy (o.get "maximum_price_per_night")) (truthy (o.get "minimum_rating"))) := by
  cases h1 : truthy (o.get "city") <;> cases h2 : truthy (o.get "owner_id") <;>
  simp only [pricePlaceholder, h1, h2] <;> rfl

theorem price_text_flags : ∀ c ow mn mx r : Bool,
    (mn = true → mx = true →
      occurrences ("AND cost_per_night >= $"
          ++ toString (pricePlaceholder (flagOptions c ow mn mx r))
          ++ " AND cost_per_night <= $"
          ++ toString (pricePlaceholder (flagOptions c ow mn mx r) + 1))
        (flagText c ow mn mx r) ≠ []) ∧
    (mn = true → mx = false →
      occurrences ("AND cost_per_night >= $"
          ++ toString (pricePlaceholder (flagOptions c ow mn mx r)))
        (flagText c ow mn mx r) ≠ [] ∧
      occurrences "cost_per_night <=" (flagText c ow mn mx r) = []) ∧
    (mn = false → mx = true →
      occurrences ("AND cost_per_night <= $"
          ++ toString (pricePlaceholder (flagOptions c ow mn mx r)))
        (flagText c ow mn mx r) ≠ [] ∧
      occurrences "cost_per_night >=" (flagText c ow mn mx r) = []) ∧
    (mn = false → mx = false →
      occurrences "cost_per_night >=" (flagText c ow mn mx r) = [] ∧
      occurrences "cost_per_night <=" (flagText c ow mn mx r) = []) := by
  decide!

theorem expectedFilters_eq (o : JSObject) :
    expectedFilters o =
      (if truthy (o.get "city") = true then [Filter.city] else [])
      ++ (if truthy (o.get "owner_id") = true then [Filter.owner_id] else [])
      ++ (if truthy (o.get "minimum_price_per_night") = true
          then [Filter.minimum_price_per_night] else [])
      ++ (if truthy (o.get "maximum_price_per_night") = true
          then [Filter.maximum_price_per_night] else [])
      ++ (if truthy (o.get "minimum_rating") = true then [Filter.minimum_rating] else [])
      ++ [Filter.limit] := by
  cases h1 : truthy (o.get "city") <;> cases h2 : truthy (o.get "owner_id") <;>
  cases h3 : truthy (o.get "minimum_price_per_night") <;>
  cases h4 : truthy (o.get "maximum_price_per_night") <;>
  cases h5 : truthy (o.get "minimum_rating") <;>
  simp only [expectedFilters, filterPresent, List.filter, h1, h2, h3, h4, h5] <;> rfl

theorem truthy_num {a : Int} (h : a ≠ 0) : truthy (num a) = true := by
  simp [truthy, h]

theorem numTimes100_exact {a : Int} (h : (a * 100).natAbs ≤ 2 ^ 53) :
    numTimes100 a = num (a * 100) := by
  have hm : a.natAbs * 100 ≤ 2 ^ 53 := by
    have : (a * 100).natAbs = a.natAbs * 100 := by simp [Int.natAbs_mul]
    omega
  have hr : roundToDouble (a.natAbs * 100) = some (a.natAbs * 100) := by
    unfold roundToDouble
    rw [if_pos hm]
  unfold numTimes100
  rw [hr]
  simp only [num.injEq]
  split
  · rename_i hneg
    push_cast
    rw [abs_of_neg hneg]
    ring
  · rename_i hneg
    push_cast
    rw [abs_of_nonneg (not_lt.mp hneg)]

/-- The statement shape accepts the other SELECT texts of the source, and rejects an AND
that has no condition to continue and a second WHERE. -/
theorem wellFormedSelect_examples :
    wellFormedSelect "SELECT * FROM users WHERE email = $1" = true ∧
    wellFormedSelect "SELECT * FROM users WHERE id = $1" = true ∧
    wellFormedSelect getAllReservationsQueryString = true ∧
    wellFormedSelect "SELECT * FROM users AND email = $1" = false ∧
    wellFormedSelect "SELECT * FROM users WHERE AND email = $1" = false ∧
    wellFormedSelect "SELECT * FROM users WHERE email = $1 WHERE id = $2" = false := by
  decide!

theorem wellFormed_flags : ∀ c ow mn mx r : Bool,
    (c = false → (ow = true ∨ mn = true ∨ mx = true) →
      (baseQueryString ++ "AND ").toList.isPrefixOf (flagText c ow mn mx r).toList = true) ∧
    (letterAfterPlaceholder (pieces (flagText c ow mn mx r)) = false →
      wellFormedSelect (flagText c ow mn mx r) = true) := by
  decide!

theorem anySuffix_iff (k : List Char → Bool) (t : List Char) :
    anySuffix k t = true ↔ ∃ u, u <:+ t ∧ k u = true := by
  induction t with
  | nil => simp [anySuffix]
  | cons c cs ih =>
    simp only [anySuffix, Bool.or_eq_true, ih, List.suffix_cons_iff]
    constructor
    · rintro (h | ⟨u, hu, hk⟩)
      · exact ⟨c :: cs, Or.inl rfl, h⟩
      · exact ⟨u, Or.inr hu, hk⟩
    · rintro ⟨u, hu | hu, hk⟩
      · left; rw [← hu]; exact hk
      · exact Or.inr ⟨u, hu, hk⟩

theorem likeMatch_plain_append (s : List Char)
    (hs : ∀ c ∈ s, c ≠ '%' ∧ c ≠ '_' ∧ c ≠ '\\') (rest t : List Char) :
    likeMatch false (s ++ rest) t = true ↔ ∃ u, t = s ++ u ∧ likeMatch false rest u = true := by
  induction s generalizing t with
  | nil => simp
  | cons p ps ih =>
    have hp := hs p (List.mem_cons_self _ _)
    have hps : ∀ c ∈ ps, c ≠ '%' ∧ c ≠ '_' ∧ c ≠ '\\' :=
      fun c hc => hs c (List.mem_cons_of_mem _ hc)
    cases t with
    | nil => simp [likeMatch, hp.1, hp.2.2]
    | cons c cs =>
      simp only [List.cons_append, likeMatch, hp.1, hp.2.2, if_false, Bool.and_eq_true,
        Bool.or_eq_true, beq_iff_eq, hp.2.1, false_or, List.append_eq, ih hps, List.cons.injEq]
      constructor
      · rintro ⟨hpc, u, hcs, hu⟩
        exact ⟨u, ⟨hpc.symm, hcs⟩, hu⟩
      · rintro ⟨u, ⟨hpc, hcs⟩, hu⟩
        exact ⟨hpc.symm, u, hcs, hu⟩

theorem likeMatch_percent (t : List Char) : likeMatch false ['%'] t = true := by
  have : likeMatch false ['%'] t = anySuffix (likeMatch false []) t := by
    simp [likeMatch]
  rw [this, anySuffix_iff]
  exact ⟨[], List.nil_suffix, rfl⟩

theorem sqlLike_wrapped (s t : String) (hs : plainText s) :
    sqlLike t ("%" ++ s ++ "%") = true ↔ s.toList <:+: t.toList := by
  have h1 : ("%" ++ s ++ "%").toList = '%' :: (s.toList ++ ['%']) := by
    simp [String.toList]
  have h2 : likeMatch false ('%' :: (s.toList ++ ['%'])) t.toList
      = anySuffix (likeMatch false (s.toList ++ ['%'])) t.toList := by
    simp [likeMatch]
  rw [sqlLike, h1, h2, anySuffix_iff, List.infix_iff_prefix_suffix]
  constructor
  · rintro ⟨u, hu, hk⟩
    obtain ⟨v, rfl, -⟩ := (likeMatch_plain_append s.toList hs _ _).1 hk
    exact ⟨s.toList ++ v, List.prefix_append _ _, hu⟩
  · rintro ⟨u, ⟨v, rfl⟩, hu⟩
    exact ⟨s.toList ++ v, hu, (likeMatch_plain_append s.toList hs _ _).2
      ⟨v, rfl, likeMatch_percent v⟩⟩

theorem city_text_flags : ∀ ow mn mx r : Bool,
    (baseQueryString ++ "WHERE city LIKE $1 ").toList.isPrefixOf
        (flagText true ow mn mx r).toList = true ∧
    occurrences "WHERE" (flagText true ow mn mx r) = [baseQueryString.length] ∧
    (placeholderClauses (flagText true ow mn mx r)).head? = some (some Filter.city, 1) := by
  decide!

/-! ## Theorems -/

/-- C1: the placeholders of the text built by `getAllProperties`, read left to right, are
exactly `$1 … $n` with `n` the number of parameters; the parameters are the values of the
present filters in the order city pattern, owner id, minimum price, maximum price, minimum
rating, limit; the k-th placeholder stands in the clause of the k-th parameter, and the
LIMIT placeholder is `$n`. -/
theorem getAllProperties_placeholders_match_params (f : String → Option Int) (o : JSObject)
    (l : JSVal) :
    (getAllPropertiesQuery f o l).queryParams = (expectedFilters o).map (filterValue f o l) ∧
    placeholders (getAllPropertiesQuery f o l).queryString
      = List.range' 1 (getAllPropertiesQuery f o l).queryParams.length ∧
    placeholderClauses (getAllPropertiesQuery f o l).queryString
      = List.zip ((expectedFilters o).map some)
          (List.range' 1 (getAllPropertiesQuery f o l).queryParams.length) ∧
    bindings (getAllPropertiesQuery f o l)
      = (expectedFilters o).map (fun x => (some x, some (filterValue f o l x))) ∧
    (placeholderClauses (getAllPropertiesQuery f o l).queryString).getLast?
      = some (some Filter.limit, (getAllPropertiesQuery f o l).queryParams.length) := by
  have hlen : (getAllPropertiesQuery f o l).queryParams.length
      = (expectedFilters (flagOptions (truthy (o.get "city"))
      (truthy (o.get "owner_id")) (truthy (o.get "minimum_price_per_night"))
      (truthy (o.get "maximum_price_per_night")) (truthy (o.get "minimum_rating")))).length := by
    rw [queryParams_eq, List.length_map, ← expectedFilters_flags]
  refine ⟨queryParams_eq f o l, ?_, ?_, bindings_eq f o l, ?_⟩
  · rw [hlen, queryString_flags]; exact placeholders_flags _ _ _ _ _
  · rw [hlen, queryString_flags, expectedFilters_flags o]; exact placeholderClauses_flags _ _ _ _ _
  · rw [hlen, queryString_flags]; exact placeholderClauses_last_flags _ _ _ _ _

theorem where_and_flags : ∀ c ow mn mx r : Bool,
    (occurrences "WHERE" (flagText c ow mn mx r) ≠ [] ↔ c = true) ∧
    (ow = true → occurrences "AND owner_id = $" (flagText c ow mn mx r) ≠ []) ∧
    (mn = true → occurrences "AND cost_per_night >= $" (flagText c ow mn mx r) ≠ []) ∧
    (mx = true → occurrences "AND cost_per_night <= $" (flagText c ow mn mx r) ≠ []) ∧
    (c = false → (ow = true ∨ mn = true ∨ mx = true) →
      ∃ a ∈ occurrences "AND " (flagText c ow mn mx r),
        ∀ w ∈ occurrences "WHERE" (flagText c ow mn mx r), ¬ w < a) ∧
    (c = true →
      (occurrences "WHERE" (flagText c ow mn mx r)).length = 1 ∧
      ∀ w ∈ occurrences "WHERE" (flagText c ow mn mx r),
        ∀ a ∈ occurrences "AND" (flagText c ow mn mx r), w < a) := by
  decide!

/-- C2 (as amended): the text built by `getAllProperties` contains a WHERE keyword exactly
when the city is present, while the owner and price conditions are always introduced by AND;
so with the city absent and the owner or a price bound present there is an AND condition
with no WHERE before it, which comes right after the base text and so continues the ON
condition of the join, and the text is a well-formed statement whenever no placeholder runs
into a following word; with the city present the single WHERE precedes every AND. -/
theorem getAllProperties_where_iff_city (f : String → Option Int) (o : JSObject) (l : JSVal) :
    (occurrences "WHERE" (getAllPropertiesQuery f o l).queryString ≠ []
      ↔ truthy (o.get "city") = true) ∧
    (truthy (o.get "owner_id") = true →
      occurrences "AND owner_id = $" (getAllPropertiesQuery f o l).queryString ≠ []) ∧
    (truthy (o.get "minimum_price_per_night") = true →
      occurrences "AND cost_per_night >= $" (getAllPropertiesQuery f o l).queryString ≠ []) ∧
    (truthy (o.get "maximum_price_per_night") = true →
      occurrences "AND cost_per_night <= $" (getAllPropertiesQuery f o l).queryString ≠ []) ∧
    (truthy (o.get "city") = false →
      (truthy (o.get "owner_id") = true ∨ truthy (o.get "minimum_price_per_night") = true
        ∨ truthy (o.get "maximum_price_per_night") = true) →
      ∃ a ∈ occurrences "AND " (getAllPropertiesQuery f o l).queryString,
        ∀ w ∈ occurrences "WHERE" (getAllPropertiesQuery f o l).queryString, ¬ w < a) ∧
    (truthy (o.get "city") = true →
      (occurrences "WHERE" (getAllPropertiesQuery f o l).queryString).length = 1 ∧
      ∀ w ∈ occurrences "WHERE" (getAllPropertiesQuery f o l).queryString,
        ∀ a ∈ occurrences "AND" (getAllPropertiesQuery f o l).queryString, w < a) ∧
    (truthy (o.get "city") = false →
      (truthy (o.get "owner_id") = true ∨ truthy (o.get "minimum_price_per_night") = true
        ∨ truthy (o.get "maximum_price_per_night") = true) →
      (baseQueryString ++ "AND ").toList.isPrefixOf
        (getAllPropertiesQuery f o l).queryString.toList = true) ∧
    (letterAfterPlaceholder (pieces (getAllPropertiesQuery f o l).queryString) = false →
      wellFormedSelect (getAllPropertiesQuery f o l).queryString = true) := by
  rw [queryString_flags]
  have h1 := where_and_flags (truthy (o.get "city")) (truthy (o.get "owner_id"))
    (truthy (o.get "minimum_price_per_night")) (truthy (o.get "maximum_price_per_night"))
    (truthy (o.get "minimum_rating"))
  have h2 := wellFormed_flags (truthy (o.get "city")) (truthy (o.get "owner_id"))
    (truthy (o.get "minimum_price_per_night")) (truthy (o.get "maximum_price_per_night"))
    (truthy (o.get "minimum_rating"))
  exact ⟨h1.1, h1.2.1, h1.2.2.1, h1.2.2.2.1, h1.2.2.2.2.1, h1.2.2.2.2.2, h2.1, h2.2⟩

/-- C2 fails on "invalid SQL": with only an owner id the text has an AND condition and no
WHERE at all, and it is a well-formed statement, the AND continuing the ON condition of the
join. -/
theorem getAllProperties_and_without_where_well_formed :
    (getAllPropertiesQuery (fun _ => none) [("owner_id", num 1)] undefined).queryString
      = "\n  SELECT properties.*, avg(property_reviews.rating) as average_rating\n  FROM properties\n  JOIN property_reviews ON properties.id = property_id\n  AND owner_id = $1\n  GROUP BY properties.id ORDER BY cost_per_night\n  LIMIT $2;\n  " ∧
    occurrences "WHERE" (getAllPropertiesQuery (fun _ => none) [("owner_id", num 1)]
      undefined).queryString = [] ∧
    occurrences "AND owner_id = $" (getAllPropertiesQuery (fun _ => none) [("owner_id", num 1)]
      undefined).queryString ≠ [] ∧
    ¬ (wellFormedSelect (getAllPropertiesQuery (fun _ => none) [("owner_id", num 1)]
      undefined).queryString = false) := by
  decide!

/-- C5: two calls of `getAllProperties` whose options have the same filters present build
the same text, whatever the filter values and the limits are; the values occur in the
parameter lists only, the city inside its `%…%` pattern. -/
theorem getAllProperties_text_independent_of_values (f g : String → Option Int)
    (o₁ o₂ : JSObject) (l₁ l₂ : JSVal)
    (hcity : truthy (o₁.get "city") = truthy (o₂.get "city"))
    (howner : truthy (o₁.get "owner_id") = truthy (o₂.get "owner_id"))
    (hmin : truthy (o₁.get "minimum_price_per_night")
      = truthy (o₂.get "minimum_price_per_night"))
    (hmax : truthy (o₁.get "maximum_price_per_night")
      = truthy (o₂.get "maximum_price_per_night"))
    (hrating : truthy (o₁.get "minimum_rating") = truthy (o₂.get "minimum_rating")) :
    (getAllPropertiesQuery f o₁ l₁).queryString = (getAllPropertiesQuery g o₂ l₂).queryString ∧
    (getAllPropertiesQuery f o₁ l₁).queryParams = (expectedFilters o₁).map (filterValue f o₁ l₁) ∧
    (getAllPropertiesQuery g o₂ l₂).queryParams
      = (expectedFilters o₂).map (filterValue g o₂ l₂) := by
  refine ⟨?_, queryParams_eq f o₁ l₁, queryParams_eq g o₂ l₂⟩
  rw [queryString_flags f o₁ l₁, queryString_flags g o₂ l₂, hcity, howner, hmin, hmax, hrating]

/-- Two searches with a city and a minimum price, of different values and limits, share their
text. -/
theorem getAllProperties_text_independent_of_values_witness :
    (getAllPropertiesQuery (fun _ => none)
        [("city", str "vancouver"), ("minimum_price_per_night", num 50)] (num 5)).queryString
      = (getAllPropertiesQuery (fun _ => some 7)
        [("minimum_price_per_night", str "x"), ("city", str "a; DROP TABLE users; --")]
        undefined).queryString :=
  (getAllProperties_text_independent_of_values _ _ _ _ _ _
    (by decide) (by decide) (by decide) (by decide) (by decide)).1

theorem letterAfterPlaceholder_flags : ∀ c ow mn mx r : Bool,
    letterAfterPlaceholder (pieces (flagText c ow mn mx r)) = (ow && (mn || mx)) := by
  decide!

/-- In the text built by `getAllProperties` a placeholder is immediately followed by a
letter exactly when the owner id and a price bound are both present. -/
theorem letterAfterPlaceholder_iff (f : String → Option Int) (o : JSObject) (l : JSVal) :
    letterAfterPlaceholder (pieces (getAllPropertiesQuery f o l).queryString)
      = (truthy (o.get "owner_id") && (truthy (o.get "minimum_price_per_night")
          || truthy (o.get "maximum_price_per_night"))) := by
  rw [queryString_flags]
  exact letterAfterPlaceholder_flags _ _ _ _ _

/-- C10: with an owner id and a minimum price the text built by `getAllProperties` reads
`AND owner_id = $1AND cost_per_night >= $2`: the placeholder `$1` is immediately followed
by a letter. -/
theorem getAllProperties_owner_then_price_unseparated :
    (getAllPropertiesQuery (fun _ => none)
        [("owner_id", num 1), ("minimum_price_per_night", num 50)] undefined).queryString
      = "\n  SELECT properties.*, avg(property_reviews.rating) as average_rating\n  FROM properties\n  JOIN property_reviews ON properties.id = property_id\n  AND owner_id = $1AND cost_per_night >= $2\n  GROUP BY properties.id ORDER BY cost_per_night\n  LIMIT $3;\n  " ∧
    letterAfterPlaceholder (pieces (getAllPropertiesQuery (fun _ => none)
        [("owner_id", num 1), ("minimum_price_per_night", num 50)] undefined).queryString)
      = true := by
  decide!

/-- C6: `getUserWithEmail`, `getUserWithId`, `addUser` and `addProperty` never reject: for
every response of the store each resolves to the first returned row when there is one, and
to `null` both for an empty result and for a failed query. -/
theorem single_row_functions_swallow_errors (pool : Pool) (email id : JSVal)
    (user property : JSObject) :
    getUserWithEmail pool email
      = firstRowOrNull (pool "SELECT * FROM users WHERE email = $1" [email]) ∧
    getUserWithId pool id = firstRowOrNull (pool "SELECT * FROM users WHERE id = $1" [id]) ∧
    addUser pool user
      = firstRowOrNull
          (pool "INSERT INTO users (name, email, password) VALUES ($1, $2, $3) RETURNING *"
            [user.get "name", user.get "email", user.get "password"]) ∧
    addProperty pool property
      = firstRowOrNull (pool (addPropertyQuery property).queryString
          (addPropertyQuery property).queryParams) ∧
    (∀ e, getUserWithEmail pool email ≠ .rejected e) ∧
    (∀ e, getUserWithId pool id ≠ .rejected e) ∧
    (∀ e, addUser pool user ≠ .rejected e) ∧
    (∀ e, addProperty pool property ≠ .rejected e) := by
  have key : ∀ p : Promise QueryResult,
      (p.then_ (fun result => (firstRow result.rows).or .null)).catch_ (fun _ => Value.null)
        = firstRowOrNull p := by
    intro p
    rcases p with ⟨⟨rows⟩⟩ | e
    · cases rows <;> rfl
    · rfl
  have never : ∀ (p : Promise QueryResult) (e : String), firstRowOrNull p ≠ .rejected e := by
    intro p e
    rcases p with ⟨⟨rows⟩⟩ | e'
    · cases rows <;> simp [firstRowOrNull]
    · simp [firstRowOrNull]
  have h1 : getUserWithEmail pool email
      = firstRowOrNull (pool "SELECT * FROM users WHERE email = $1" [email]) := key _
  have h2 : getUserWithId pool id
      = firstRowOrNull (pool "SELECT * FROM users WHERE id = $1" [id]) := key _
  have h3 : addUser pool user
      = firstRowOrNull
          (pool "INSERT INTO users (name, email, password) VALUES ($1, $2, $3) RETURNING *"
            [user.get "name", user.get "email", user.get "password"]) := key _
  have h4 : addProperty pool property
      = firstRowOrNull (pool (addPropertyQuery property).queryString
          (addPropertyQuery property).queryParams) := key _
  refine ⟨h1, h2, h3, h4, ?_, ?_, ?_, ?_⟩
  · rw [h1]; exact never _
  · rw [h2]; exact never _
  · rw [h3]; exact never _
  · rw [h4]; exact never _

/-- C7: when the query succeeds `getAllReservations` and `getAllProperties` both resolve to
the store's row list unchanged; when it fails `getAllReservations` resolves to `undefined`
while `getAllProperties` rejects with the store's error. -/
theorem list_functions_differ_on_failure (pool : Pool) (f : String → Option Int)
    (guest_id limit : JSVal) (options : JSObject) :
    getAllReservations pool guest_id limit
      = (match pool getAllReservationsQueryString
            [guest_id, if limit = JSVal.undefined then num 10 else limit] with
        | .resolved result => .resolved (.rows result.rows)
        | .rejected _ => .resolved .undefined) ∧
    getAllProperties pool f options limit
      = (match pool (getAllPropertiesQuery f options limit).queryString
            (getAllPropertiesQuery f options limit).queryParams with
        | .resolved result => .resolved (.rows result.rows)
        | .rejected e => .rejected e) := by
  constructor
  · simp only [getAllReservations]
    cases pool getAllReservationsQueryString
      [guest_id, if limit = JSVal.undefined then num 10 else limit] <;> rfl
  · simp only [getAllProperties]
    cases pool (getAllPropertiesQuery f options limit).queryString
      (getAllPropertiesQuery f options limit).queryParams <;> rfl

/-- C8: for the payload whose `cost_per_night` is 100 (dollars), `addProperty` binds 100 in
the `cost_per_night` column, not 10000, whereas `getAllProperties` binds 10000 for a price
bound of 100. -/
theorem addProperty_binds_cost_unconverted :
    (parenLists addPropertyQueryString).head?.bind (fun cols => cols.get? 5)
      = some "cost_per_night" ∧
    (addPropertyQuery [("owner_id", num 1), ("title", str "t"), ("description", str "d"),
        ("thumbnail_photo_url", str "u"), ("cover_photo_url", str "v"),
        ("cost_per_night", num 100), ("street", str "s"), ("city", str "c"),
        ("province", str "p"), ("post_code", str "z"), ("country", str "k"),
        ("parking_spaces", num 1), ("number_of_bathrooms", num 1),
        ("number_of_bedrooms", num 1)]).queryParams.get? 5 = some (num 100) ∧
    num 100 ≠ num (100 * 100) ∧
    (getAllPropertiesQuery (fun _ => none) [("minimum_price_per_night", num 100)]
        undefined).queryParams.head? = some (num (100 * 100)) := by
  decide!

/-- C9: `addProperty` binds exactly 14 parameters; the i-th is the payload's field named by
the i-th column of the INSERT column list, the VALUES list is `$1, …, $14` in this order,
and the statement text does not depend on the payload. -/
theorem addProperty_params_follow_columns (property other : JSObject) :
    (addPropertyQuery property).queryParams.length = 14 ∧
    parenLists (addPropertyQuery property).queryString
      = [["owner_id", "title", "description", "thumbnail_photo_url", "cover_photo_url",
          "cost_per_night", "street", "city", "province", "post_code", "country",
          "parking_spaces", "number_of_bathrooms", "number_of_bedrooms"],
         (List.range' 1 14).map (fun i => "$" ++ toString i)] ∧
    (∀ cols ∈ (parenLists (addPropertyQuery property).queryString).head?,
      (addPropertyQuery property).queryParams = cols.map property.get) ∧
    placeholders (addPropertyQuery property).queryString = List.range' 1 14 ∧
    (addPropertyQuery other).queryString = (addPropertyQuery property).queryString := by
  have hl : parenLists addPropertyQueryString
      = [["owner_id", "title", "description", "thumbnail_photo_url", "cover_photo_url",
          "cost_per_night", "street", "city", "province", "post_code", "country",
          "parking_spaces", "number_of_bathrooms", "number_of_bedrooms"],
         (List.range' 1 14).map (fun i => "$" ++ toString i)] := by decide!
  have hp : placeholders addPropertyQueryString = List.range' 1 14 := by decide!
  refine ⟨rfl, hl, ?_, hp, rfl⟩
  · intro cols hc
    have : (parenLists addPropertyQueryString).head? = some cols := hc
    rw [hl] at this
    simp only [List.head?_cons, Option.some.injEq] at this
    subst this
    rfl

/-- C3 (as amended): a bound counts as supplied when it is a nonzero integer whose product
with 100 does not exceed `2 ^ 53` in magnitude, and as not supplied when it is absent. With
both bounds supplied the text has the double bound
`cost_per_night >= $i AND cost_per_night <= $(i+1)` and binds minimum*100 at `$i` and
maximum*100 at `$(i+1)`; with one bound supplied it has only that one-sided comparison,
bound to the value times 100; with none it has no `cost_per_night` condition and no price
parameter. -/
theorem getAllProperties_price_bounds (f : String → Option Int) (o : JSObject) (l : JSVal) :
    (∀ a b : Int, o.get "minimum_price_per_night" = num a → a ≠ 0 →
      (a * 100).natAbs ≤ 2 ^ 53 →
      o.get "maximum_price_per_night" = num b → b ≠ 0 → (b * 100).natAbs ≤ 2 ^ 53 →
      occurrences ("AND cost_per_night >= $" ++ toString (pricePlaceholder o)
          ++ " AND cost_per_night <= $" ++ toString (pricePlaceholder o + 1))
        (getAllPropertiesQuery f o l).queryString ≠ [] ∧
      (getAllPropertiesQuery f o l).queryParams.get? (pricePlaceholder o - 1)
        = some (num (a * 100)) ∧
      (getAllPropertiesQuery f o l).queryParams.get? (pricePlaceholder o)
        = some (num (b * 100)) ∧
      priceBindings (getAllPropertiesQuery f o l)
        = [(some Filter.minimum_price_per_night, some (num (a * 100))),
           (some Filter.maximum_price_per_night, some (num (b * 100)))]) ∧
    (∀ a : Int, o.get "minimum_price_per_night" = num a → a ≠ 0 →
      (a * 100).natAbs ≤ 2 ^ 53 →
      o.get "maximum_price_per_night" = undefined →
      occurrences ("AND cost_per_night >= $" ++ toString (pricePlaceholder o))
        (getAllPropertiesQuery f o l).queryString ≠ [] ∧
      occurrences "cost_per_night <=" (getAllPropertiesQuery f o l).queryString = [] ∧
      (getAllPropertiesQuery f o l).queryParams.get? (pricePlaceholder o - 1)
        = some (num (a * 100)) ∧
      priceBindings (getAllPropertiesQuery f o l)
        = [(some Filter.minimum_price_per_night, some (num (a * 100)))]) ∧
    (∀ b : Int, o.get "minimum_price_per_night" = undefined →
      o.get "maximum_price_per_night" = num b → b ≠ 0 → (b * 100).natAbs ≤ 2 ^ 53 →
      occurrences ("AND cost_per_night <= $" ++ toString (pricePlaceholder o))
        (getAllPropertiesQuery f o l).queryString ≠ [] ∧
      occurrences "cost_per_night >=" (getAllPropertiesQuery f o l).queryString = [] ∧
      (getAllPropertiesQuery f o l).queryParams.get? (pricePlaceholder o - 1)
        = some (num (b * 100)) ∧
      priceBindings (getAllPropertiesQuery f o l)
        = [(some Filter.maximum_price_per_night, some (num (b * 100)))]) ∧
    (o.get "minimum_price_per_night" = undefined →
      o.get "maximum_price_per_night" = undefined →
      occurrences "cost_per_night >=" (getAllPropertiesQuery f o l).queryString = [] ∧
      occurrences "cost_per_night <=" (getAllPropertiesQuery f o l).queryString = [] ∧
      priceBindings (getAllPropertiesQuery f o l) = [] ∧
      (getAllPropertiesQuery f o l).queryParams
        = ([Filter.city, .owner_id, .minimum_rating, .limit].filter (filterPresent o)).map
            (filterValue f o l)) := by
  have htext := price_text_flags (truthy (o.get "city")) (truthy (o.get "owner_id"))
    (truthy (o.get "minimum_price_per_night")) (truthy (o.get "maximum_price_per_night"))
    (truthy (o.get "minimum_rating"))
  rw [← pricePlaceholder_flags, ← queryString_flags f o l] at htext
  obtain ⟨ht1, ht2, ht3, ht4⟩ := htext
  have hq := queryParams_eq f o l
  have hbind := bindings_eq f o l
  rw [expectedFilters_eq] at hq hbind
  have hundef : truthy undefined = false := rfl
  refine ⟨?_, ?_, ?_, ?_⟩
  · intro a b ha ha0 har hb hb0 hbr
    have h3 : truthy (o.get "minimum_price_per_night") = true := by rw [ha]; exact truthy_num ha0
    have h4 : truthy (o.get "maximum_price_per_night") = true := by rw [hb]; exact truthy_num hb0
    refine ⟨ht1 h3 h4, ?_, ?_, ?_⟩ <;>
    cases h1 : truthy (o.get "city") <;> cases h2 : truthy (o.get "owner_id") <;>
    cases h5 : truthy (o.get "minimum_rating") <;>
    simp [priceBindings, hq, hbind, pricePlaceholder, filterValue, times100, h1, h2, h3, h4, h5,
      ha, hb, truthy_num ha0, truthy_num hb0, numTimes100_exact har, numTimes100_exact hbr]
  · intro a ha ha0 har hb
    have h3 : truthy (o.get "minimum_price_per_night") = true := by rw [ha]; exact truthy_num ha0
    have h4 : truthy (o.get "maximum_price_per_night") = false := by rw [hb]; rfl
    refine ⟨(ht2 h3 h4).1, (ht2 h3 h4).2, ?_, ?_⟩ <;>
    cases h1 : truthy (o.get "city") <;> cases h2 : truthy (o.get "owner_id") <;>
    cases h5 : truthy (o.get "minimum_rating") <;>
    simp [priceBindings, hq, hbind, pricePlaceholder, filterValue, times100, h1, h2, h3, h4, h5,
      ha, hb, hundef, truthy_num ha0, numTimes100_exact har]
  · intro b ha hb hb0 hbr
    have h3 : truthy (o.get "minimum_price_per_night") = false := by rw [ha]; rfl
    have h4 : truthy (o.get "maximum_price_per_night") = true := by rw [hb]; exact truthy_num hb0
    refine ⟨(ht3 h3 h4).1, (ht3 h3 h4).2, ?_, ?_⟩ <;>
    cases h1 : truthy (o.get "city") <;> cases h2 : truthy (o.get "owner_id") <;>
    cases h5 : truthy (o.get "minimum_rating") <;>
    simp [priceBindings, hq, hbind, pricePlaceholder, filterValue, times100, h1, h2, h3, h4, h5,
      ha, hb, hundef, truthy_num hb0, numTimes100_exact hbr]
  · intro ha hb
    have h3 : truthy (o.get "minimum_price_per_night") = false := by rw [ha]; rfl
    have h4 : truthy (o.get "maximum_price_per_night") = false := by rw [hb]; rfl
    refine ⟨(ht4 h3 h4).1, (ht4 h3 h4).2, ?_, ?_⟩ <;>
    cases h1 : truthy (o.get "city") <;> cases h2 : truthy (o.get "owner_id") <;>
    cases h5 : truthy (o.get "minimum_rating") <;>
    simp [priceBindings, hq, hbind, filterPresent, filterValue, h1, h2, h3, h4, h5, ha, hb,
      hundef]

/-- The bounds 50 and 150 give the double bound at `$1`, `$2`, bound to 5000 and 15000. -/
theorem getAllProperties_price_bounds_witness :
    occurrences "AND cost_per_night >= $1 AND cost_per_night <= $2"
      (getAllPropertiesQuery (fun _ => none)
        [("minimum_price_per_night", num 50), ("maximum_price_per_night", num 150)]
        undefined).queryString ≠ [] ∧
    (getAllPropertiesQuery (fun _ => none)
        [("minimum_price_per_night", num 50), ("maximum_price_per_night", num 150)]
        undefined).queryParams.get? 0 = some (num 5000) ∧
    (getAllPropertiesQuery (fun _ => none)
        [("minimum_price_per_night", num 50), ("maximum_price_per_night", num 150)]
        undefined).queryParams.get? 1 = some (num 15000) ∧
    priceBindings (getAllPropertiesQuery (fun _ => none)
        [("minimum_price_per_night", num 50), ("maximum_price_per_night", num 150)] undefined)
      = [(some Filter.minimum_price_per_night, some (num 5000)),
         (some Filter.maximum_price_per_night, some (num 15000))] :=
  (getAllProperties_price_bounds (fun _ => none)
    [("minimum_price_per_night", num 50), ("maximum_price_per_night", num 150)] undefined).1
    50 150 rfl (by decide) (by decide) rfl (by decide) (by decide)

/-- C3 fails beyond the exact range and at zero: the bound 9007199254740991, as minimum and
as maximum, is bound as 900719925474099072, not as its exact product with 100; and with
minimum 0 and maximum 150 the text has no `cost_per_night >=` comparison and 0 is bound
nowhere. -/
theorem getAllProperties_price_bound_not_exact :
    priceBindings (getAllPropertiesQuery (fun _ => none)
        [("minimum_price_per_night", num 9007199254740991),
         ("maximum_price_per_night", num 9007199254740991)] undefined)
      = [(some Filter.minimum_price_per_night, some (num 900719925474099072)),
         (some Filter.maximum_price_per_night, some (num 900719925474099072))] ∧
    num (9007199254740991 * 100) ∉ (getAllPropertiesQuery (fun _ => none)
        [("minimum_price_per_night", num 9007199254740991),
         ("maximum_price_per_night", num 9007199254740991)] undefined).queryParams ∧
    ¬ (occurrences "cost_per_night >= $" (getAllPropertiesQuery (fun _ => none)
          [("minimum_price_per_night", num 0), ("maximum_price_per_night", num 150)]
          undefined).queryString ≠ [] ∧
        num (0 * 100) ∈ (getAllPropertiesQuery (fun _ => none)
          [("minimum_price_per_night", num 0), ("maximum_price_per_night", num 150)]
          undefined).queryParams) ∧
    (getAllPropertiesQuery (fun _ => none)
        [("minimum_price_per_night", num 0), ("maximum_price_per_night", num 150)]
        undefined).queryParams = [num 15000, num 10] := by
  decide!

/-- C4 (as amended): with a city present `getAllProperties` binds the pattern
`"%" ++ city ++ "%"` as parameter `$1` and puts `WHERE city LIKE $1` right after the base
text, as the only WHERE of the query; the condition is a LIKE match, which respects letter
case: for a city text without `%`, `_` and backslash a row satisfies it exactly when its
city contains that text, letter for letter. -/
theorem getAllProperties_city_like (f : String → Option Int) (o : JSObject) (l : JSVal)
    (hcity : truthy (o.get "city") = true) :
    (getAllPropertiesQuery f o l).queryParams.head?
      = some (str ("%" ++ toStr (o.get "city") ++ "%")) ∧
    (bindings (getAllPropertiesQuery f o l)).head?
      = some (some Filter.city, some (str ("%" ++ toStr (o.get "city") ++ "%"))) ∧
    (placeholderClauses (getAllPropertiesQuery f o l).queryString).head?
      = some (some Filter.city, 1) ∧
    (baseQueryString ++ "WHERE city LIKE $1 ").toList.isPrefixOf
        (getAllPropertiesQuery f o l).queryString.toList = true ∧
    occurrences "WHERE" (getAllPropertiesQuery f o l).queryString = [baseQueryString.length] ∧
    (∀ pattern : String,
      (bindings (getAllPropertiesQuery f o l)).head? = some (some Filter.city, some (str pattern)) →
      plainText (toStr (o.get "city")) →
      ∀ rowCity : String,
        sqlLike rowCity pattern = true ↔ (toStr (o.get "city")).toList <:+: rowCity.toList) := by
  have htext := city_text_flags (truthy (o.get "owner_id"))
    (truthy (o.get "minimum_price_per_night")) (truthy (o.get "maximum_price_per_night"))
    (truthy (o.get "minimum_rating"))
  have hqs : (getAllPropertiesQuery f o l).queryString
      = flagText true (truthy (o.get "owner_id")) (truthy (o.get "minimum_price_per_night"))
          (truthy (o.get "maximum_price_per_night")) (truthy (o.get "minimum_rating")) := by
    rw [queryString_flags f o l, hcity]
  rw [← hqs] at htext
  have hq := queryParams_eq f o l
  have hbind := bindings_eq f o l
  rw [expectedFilters_eq, hcity] at hq hbind
  have hb : (bindings (getAllPropertiesQuery f o l)).head?
      = some (some Filter.city, some (str ("%" ++ toStr (o.get "city") ++ "%"))) := by
    rw [hbind]; simp [filterValue]
  refine ⟨?_, hb, htext.2.2, htext.1, htext.2.1, ?_⟩
  · rw [hq]; simp [filterValue]
  · intro pattern hp hplain rowCity
    rw [hb] at hp
    simp only [Option.some.injEq, Prod.mk.injEq, true_and, str.injEq] at hp
    rw [← hp]
    exact sqlLike_wrapped _ _ hplain

/-- The city "Vancouver" is bound as `%Vancouver%` and the text has its one WHERE right after
the base text. -/
theorem getAllProperties_city_like_witness :
    (getAllPropertiesQuery (fun _ => none) [("city", str "Vancouver")] undefined).queryParams.head?
      = some (str "%Vancouver%") ∧
    occurrences "WHERE" (getAllPropertiesQuery (fun _ => none) [("city", str "Vancouver")]
      undefined).queryString = [baseQueryString.length] :=
  ⟨(getAllProperties_city_like (fun _ => none) [("city", str "Vancouver")] undefined
      (by decide)).1,
    (getAllProperties_city_like (fun _ => none) [("city", str "Vancouver")] undefined
      (by decide)).2.2.2.2.1⟩

/-- C4 fails on letter case: for city "vancouver" the bound pattern is `%vancouver%`, and a
row whose city is "Vancouver" contains the text regardless of case but does not satisfy
`city LIKE '%vancouver%'`; and a city text `_` selects a row that does not contain it. -/
theorem city_like_respects_case :
    (getAllPropertiesQuery (fun _ => none) [("city", str "vancouver")] undefined).queryParams.head?
      = some (str "%vancouver%") ∧
    ¬ (sqlLike "Vancouver" "%vancouver%" = true
        ↔ containsIgnoringCase "vancouver" "Vancouver" = true) ∧
    ¬ (sqlLike "x" "%_%" = true ↔ containsIgnoringCase "_" "x" = true) := by
  decide!

end LightBnB
